import Mathlib

/-!
Verification of the data pipeline of the Agios Athanasios 419 market-analysis
dashboard (src/main.py): the cleaned sale-record model, the conjunctive filter
engine, and the four groupby rollups (time-bucket, project, bedroom,
geographic).  Dataframes are embedded as lists of records, monetary floats as
rationals, missing values as Option, and the derived Year-Month column as a
string-formatting function of the parsed contract date.
-/

/-- Calendar date as produced by pd.to_datetime(..., dayfirst=True) at load
time (main.py line 39); only the date part is ever used (.dt.date, .dt
strftime), so no time component is modelled. -/
structure Date where
  year : Nat
  month : Nat
  day : Nat
deriving DecidableEq, Repr

/-- Date comparison in calendar (year, month, day) lexicographic order; this
is the order pandas uses for datetime comparisons in the filter
(main.py lines 87-88). -/
def Date.leB (a b : Date) : Bool :=
  if a.year < b.year then true
  else if b.year < a.year then false
  else if a.month < b.month then true
  else if b.month < a.month then false
  else decide (a.day ≤ b.day)

/-- One cleaned row of the ledger after load_data (main.py lines 33-51):
the contract date is parsed, the contract amount is a parsed number, the
three area columns are already zero-filled (fillna(0), line 46), bedrooms
keeps its raw categorical value with none for NaN, and the two coordinate
columns are optional. -/
structure SaleRecord where
  unitId : String
  project : String
  contractDate : Date
  contractAmount : ℚ
  bedrooms : Option String
  coveredArea : ℚ
  coveredVeranda : ℚ
  totalCovered : ℚ
  latitude : Option ℚ
  longitude : Option ℚ
deriving DecidableEq, Repr

/-- Decimal digit character: code point 48 + d for a digit d ≤ 9. -/
def digitChar (d : Nat) : Char := Char.ofNat (48 + d)

/-- Two zero-padded decimal digits of n (the strftime %m field, and one
half of the %Y field). -/
def fmt2 (n : Nat) : List Char := [digitChar (n / 10 % 10), digitChar (n % 10)]

/-- Four zero-padded decimal digits of n: the strftime %Y field for the
years pandas can represent (all of which have at most four digits). -/
def fmt4 (n : Nat) : List Char := fmt2 (n / 100) ++ fmt2 (n % 100)

/-- Derived Year-Month bucket key, embedding
data.dt.strftime of the %Y-%m pattern (main.py line 49). -/
def yearMonthKey (d : Date) : String := String.mk (fmt4 d.year ++ '-' :: fmt2 d.month)

/-- Derived Year-Month column of a record (main.py line 49); computed once
at load time as a deterministic function of the parsed contract date, so it
is embedded as a derived field. -/
def SaleRecord.yearMonth (r : SaleRecord) : String := yearMonthKey r.contractDate

/-- Code-point lexicographic comparison of character lists: the semantics of
Python string comparison, which pandas uses when sorting the Year-Month
string column. -/
def strLtAux : List Char → List Char → Bool
  | _, [] => false
  | [], _ :: _ => true
  | c :: cs, d :: ds =>
    if c.toNat < d.toNat then true
    else if d.toNat < c.toNat then false
    else strLtAux cs ds

/-- Strict string order (Python string comparison on code points). -/
def strLt (s t : String) : Bool := strLtAux s.data t.data

/-- Reflexive string order derived from strLt. -/
def strLe (s t : String) : Bool := !(strLt t s)

/-- Dates successfully parsed by pd.to_datetime: pandas Timestamp is bounded
between the years 1677 and 2262, and a parsed month is between 1 and 12. -/
def ValidDate (d : Date) : Prop :=
  1677 ≤ d.year ∧ d.year ≤ 2262 ∧ 1 ≤ d.month ∧ d.month ≤ 12

instance (d : Date) : Decidable (ValidDate d) := by
  unfold ValidDate; infer_instance

/-- Sidebar filter state (main.py lines 57-83): inclusive date bounds,
inclusive price bounds from the slider, and the two selectbox values whose
sentinel is the string All. -/
structure FilterSpec where
  startDate : Date
  endDate : Date
  priceMin : ℚ
  priceMax : ℚ
  project : String
  bedrooms : String
deriving DecidableEq, Repr

/-- Row predicate of the boolean mask filter_conditions (main.py lines
86-97): date range and price range always apply; the project and bedrooms
equality tests are conjoined only when the selectbox is not the All
sentinel.  A NaN bedrooms cell (none) compares unequal to every selected
value, exactly as NaN == x is False in pandas. -/
def filterConditions (s : FilterSpec) (r : SaleRecord) : Bool :=
  Date.leB s.startDate r.contractDate &&
  Date.leB r.contractDate s.endDate &&
  decide (s.priceMin ≤ r.contractAmount) &&
  decide (r.contractAmount ≤ s.priceMax) &&
  (if s.project ≠ "All" then r.project == s.project else true) &&
  (if s.bedrooms ≠ "All" then r.bedrooms == some s.bedrooms else true)

/-- Filtered view filtered_data = data[filter_conditions] (main.py line 99). -/
def filteredData (s : FilterSpec) (data : List SaleRecord) : List SaleRecord :=
  data.filter (filterConditions s)

/-- Insert an element into a list assumed sorted by the comparator. -/
def insertSorted (le : α → α → Bool) (a : α) : List α → List α
  | [] => [a]
  | b :: bs => if le a b then a :: b :: bs else b :: insertSorted le a bs

/-- Insertion sort with a boolean comparator; embeds the (stable) sorting
pandas performs in groupby(sort=True) and sort_values. -/
def sortBy (le : α → α → Bool) : List α → List α
  | [] => []
  | a :: as => insertSorted le a (sortBy le as)

/-- Rows of the view whose grouping key equals k: one group of a pandas
groupby. -/
def rowsFor (key : SaleRecord → String) (l : List SaleRecord) (k : String) :
    List SaleRecord :=
  l.filter (fun r => key r == k)

/-- Group keys of a pandas groupby over the view: the distinct key values in
ascending order (groupby uses sort=True by default). -/
def groupKeys (key : SaleRecord → String) (l : List SaleRecord) : List String :=
  sortBy strLe ((l.map key).dedup)

/-- Sum of the Contract Amount column over a group (the sum aggregation). -/
def sumAmount (l : List SaleRecord) : ℚ :=
  (l.map (fun r => r.contractAmount)).sum

/-- Mean of the Contract Amount column over a group (the mean aggregation). -/
def meanAmount (l : List SaleRecord) : ℚ :=
  sumAmount l / (l.length : ℚ)

/-- Mean of the Total Covered column over a group. -/
def meanSize (l : List SaleRecord) : ℚ :=
  (l.map (fun r => r.totalCovered)).sum / (l.length : ℚ)

/-- Mean latitude of a group; every record fed to it has a latitude, so the
default of the Option projection is never hit. -/
def meanLat (l : List SaleRecord) : ℚ :=
  (l.map (fun r => r.latitude.getD 0)).sum / (l.length : ℚ)

/-- Mean longitude of a group. -/
def meanLon (l : List SaleRecord) : ℚ :=
  (l.map (fun r => r.longitude.getD 0)).sum / (l.length : ℚ)

/-- Guarded ratio, embedding Average Price / Average Size.replace(0, np.nan)
(main.py lines 153-154 and 215-216): replacing an exactly zero denominator
with NaN makes the float quotient NaN, and NaN is the pandas missing-value
marker for floats, so the result is an Option with none for a zero mean
size. -/
def guardedDiv (a b : ℚ) : Option ℚ :=
  if b = 0 then none else some (a / b)

/-- One bucket of the time-bucket rollup monthly_sales (main.py lines
112-115): bucket key, sum of Contract Amount, count of Unit ID.  The Unit ID
column is never null in the cleaned data, so count is the group size. -/
structure MonthlyRow where
  yearMonth : String
  totalSales : ℚ
  unitsSold : Nat
deriving DecidableEq, Repr

/-- Bucket of monthly_sales for one Year-Month key over the view. -/
def monthlyRow (view : List SaleRecord) (k : String) : MonthlyRow :=
  ⟨k, sumAmount (rowsFor (fun r => r.yearMonth) view k),
    (rowsFor (fun r => r.yearMonth) view k).length⟩

/-- Time-bucket rollup monthly_sales (main.py lines 112-115): group by the
Year-Month key, aggregate sum of Contract Amount and count of Unit ID.
groupby(sort=True) already emits the buckets with keys ascending, and the
following sort_values on the same key is the identity on that output, so the
composition is embedded as one map over the ascending keys. -/
def monthlySales (view : List SaleRecord) : List MonthlyRow :=
  (groupKeys (fun r => r.yearMonth) view).map (monthlyRow view)

/-- One row of the project rollup project_sales (main.py lines 149-154)
after the column renaming on line 152: Project, Total Sales, Average Price,
Units Sold, Average Size, Price per m2. -/
structure ProjRow where
  project : String
  totalSales : ℚ
  avgPrice : ℚ
  unitsSold : Nat
  avgSize : ℚ
  pricePerArea : Option ℚ
deriving DecidableEq, Repr

/-- Row of project_sales for one project key over the view. -/
def projectRow (view : List SaleRecord) (k : String) : ProjRow :=
  ⟨k, sumAmount (rowsFor (fun r => r.project) view k),
    meanAmount (rowsFor (fun r => r.project) view k),
    (rowsFor (fun r => r.project) view k).length,
    meanSize (rowsFor (fun r => r.project) view k),
    guardedDiv (meanAmount (rowsFor (fun r => r.project) view k))
      (meanSize (rowsFor (fun r => r.project) view k))⟩

/-- Rows of project_sales in groupby key order, before the final
sort_values. -/
def projectRows (view : List SaleRecord) : List ProjRow :=
  (groupKeys (fun r => r.project) view).map (projectRow view)

/-- Descending Total Sales comparator of sort_values(ascending=False)
(main.py line 157). -/
def bySalesDesc (a b : ProjRow) : Bool := decide (b.totalSales ≤ a.totalSales)

/-- Project rollup project_sales (main.py lines 149-157): group by Project,
aggregate sum, mean and count of Contract Amount and mean of Total Covered,
derive the guarded price-per-area ratio, and order by Total Sales
descending. -/
def projectSales (view : List SaleRecord) : List ProjRow :=
  sortBy bySalesDesc (projectRows view)

/-- Digit test for one character of a bedrooms cell. -/
def isDigitCh (c : Char) : Bool := 48 ≤ c.toNat && c.toNat ≤ 57

/-- Decimal-number test embedding the success of
pd.to_numeric(..., errors=coerce).notna() on a bedrooms cell (main.py line
207): an optional sign followed by digits with at most one decimal point and
at least one digit.  The exotic forms to_numeric also accepts (exponents,
surrounding whitespace) do not occur in a bedrooms column and are not
modelled. -/
def isNumericStr (s : String) : Bool :=
  let l := match s.data with
    | c :: rest => if c == '-' || c == '+' then rest else s.data
    | [] => []
  match l.splitOn '.' with
  | [intPart] => !intPart.isEmpty && intPart.all isDigitCh
  | [intPart, fracPart] =>
      (!intPart.isEmpty || !fracPart.isEmpty) &&
      intPart.all isDigitCh && fracPart.all isDigitCh
  | _ => false

/-- Numeric-bedrooms test of main.py line 207: a NaN cell (none) coerces to
NaN, hence notna is false; otherwise the raw value must parse as a number. -/
def bedroomsNumeric (r : SaleRecord) : Bool :=
  match r.bedrooms with
  | none => false
  | some s => isNumericStr s

/-- Restricted input of the bedroom rollup, bedroom_data (main.py line 207):
rows whose Bedrooms value parses as numeric. -/
def bedroomData (view : List SaleRecord) : List SaleRecord :=
  view.filter bedroomsNumeric

/-- One row of the bedroom rollup bedroom_sales (main.py lines 211-216);
the Bedrooms key keeps its raw categorical representation. -/
structure BedRow where
  bedrooms : String
  totalSales : ℚ
  avgPrice : ℚ
  unitsSold : Nat
  avgSize : ℚ
  pricePerArea : Option ℚ
deriving DecidableEq, Repr

/-- Row of bedroom_sales for one bedrooms key over the restricted view. -/
def bedroomRow (bview : List SaleRecord) (k : String) : BedRow :=
  ⟨k, sumAmount (rowsFor (fun r => r.bedrooms.getD ("")) bview k),
    meanAmount (rowsFor (fun r => r.bedrooms.getD ("")) bview k),
    (rowsFor (fun r => r.bedrooms.getD ("")) bview k).length,
    meanSize (rowsFor (fun r => r.bedrooms.getD ("")) bview k),
    guardedDiv (meanAmount (rowsFor (fun r => r.bedrooms.getD ("")) bview k))
      (meanSize (rowsFor (fun r => r.bedrooms.getD ("")) bview k))⟩

/-- Bedroom rollup bedroom_sales (main.py lines 207-216): restrict to rows
with numeric bedrooms, group by Bedrooms (keys ascending from
groupby(sort=True)), same aggregate set and zero-size guard as the project
rollup.  Every key fed to the grouping comes from a present (some) cell, so
the Option projection default is never hit. -/
def bedroomSales (view : List SaleRecord) : List BedRow :=
  (groupKeys (fun r => r.bedrooms.getD ("")) (bedroomData view)).map
    (bedroomRow (bedroomData view))

/-- Coordinate-presence test of dropna(subset=[Latitude, Longitude])
(main.py line 254). -/
def hasCoords (r : SaleRecord) : Bool :=
  r.latitude.isSome && r.longitude.isSome

/-- Restriction map_data of the view to rows with both coordinates
(main.py line 254). -/
def mapData (view : List SaleRecord) : List SaleRecord :=
  view.filter hasCoords

/-- One row of the geographic rollup (main.py lines 276-290): project,
mean coordinates, Total Sales, Units Sold and the derived marker size.  The
formatted Total Sales (Euro) hover string of line 286 is presentation-only
text and is not modelled; the size column is a real number because it is a
square root. -/
structure LocRow where
  project : String
  latitude : ℚ
  longitude : ℚ
  totalSales : ℚ
  unitsSold : Nat
  size : ℝ

/-- Row of project_locations for one project key over map_data, with the
marker size np.sqrt(Total Sales) / 100 of main.py line 283. -/
noncomputable def locRow (md : List SaleRecord) (k : String) : LocRow :=
  ⟨k, meanLat (rowsFor (fun r => r.project) md k),
    meanLon (rowsFor (fun r => r.project) md k),
    sumAmount (rowsFor (fun r => r.project) md k),
    (rowsFor (fun r => r.project) md k).length,
    Real.sqrt ((sumAmount (rowsFor (fun r => r.project) md k) : ℚ) : ℝ) / 100⟩

/-- Grouped part project_locations of the geographic rollup (main.py lines
276-283): group map_data by Project with mean coordinates, sum and count of
Contract Amount, and the derived size. -/
noncomputable def projectLocations (md : List SaleRecord) : List LocRow :=
  (groupKeys (fun r => r.project) md).map (locRow md)

/-- Fixed reference point custom_plot (main.py lines 261-273): hard-coded
label and coordinates, zero Total Sales, zero Units Sold, fixed marker size
10.  Its Price per m2 cell is None, i.e. the missing marker, matching the
absence of that column from the modelled geographic row. -/
noncomputable def customPlot : LocRow :=
  ⟨"Agios Athanasios 419", (34.707233 : ℚ), (33.053359 : ℚ), 0, 0, (10 : ℝ)⟩

/-- Geographic rollup all_locations (main.py lines 254-290): restrict to
rows with both coordinates; when none remain the map branch is skipped and
no table is produced (the guard on line 256), otherwise group by project and
union the fixed reference point onto the grouped rows (pd.concat, line
290). -/
noncomputable def allLocations (view : List SaleRecord) : List LocRow :=
  if (mapData view).isEmpty then []
  else projectLocations (mapData view) ++ [customPlot]

/-- Truncation toward zero: the semantics of the Python int() conversion
applied to the price extremes (main.py lines 76-77). -/
def ratTrunc (q : ℚ) : ℤ := if 0 ≤ q then ⌊q⌋ else ⌈q⌉

/-- Minimum of the Contract Amount column (main.py line 76); zero on an
empty table, a case load_data never produces. -/
def minAmount : List SaleRecord → ℚ
  | [] => 0
  | r :: rs =>
    rs.foldl (fun acc x => if x.contractAmount ≤ acc then x.contractAmount else acc)
      r.contractAmount

/-- Maximum of the Contract Amount column (main.py line 77). -/
def maxAmount : List SaleRecord → ℚ
  | [] => 0
  | r :: rs =>
    rs.foldl (fun acc x => if acc ≤ x.contractAmount then x.contractAmount else acc)
      r.contractAmount

/-- Earliest contract date, the default Start Date (main.py lines 61, 64). -/
def minDate : List SaleRecord → Date
  | [] => ⟨1970, 1, 1⟩
  | r :: rs =>
    rs.foldl (fun acc x => if Date.leB acc x.contractDate then acc else x.contractDate)
      r.contractDate

/-- Latest contract date, the default End Date (main.py lines 62, 65). -/
def maxDate : List SaleRecord → Date
  | [] => ⟨1970, 1, 1⟩
  | r :: rs =>
    rs.foldl (fun acc x => if Date.leB acc x.contractDate then x.contractDate else acc)
      r.contractDate

/-- Integer price bound min_price = int(min) (main.py line 76). -/
def minPrice (data : List SaleRecord) : ℤ := ratTrunc (minAmount data)

/-- Integer price bound max_price = int(max) (main.py line 77). -/
def maxPrice (data : List SaleRecord) : ℤ := ratTrunc (maxAmount data)

/-- Default slider value (min_price, max_price) (main.py lines 78-83): the
price range offered when the user constrains nothing. -/
def priceRange (data : List SaleRecord) : ℤ × ℤ := (minPrice data, maxPrice data)

/-- Filter specification when every widget keeps its default: full date
range, default price range, both selectboxes on the All sentinel. -/
def defaultSpec (data : List SaleRecord) : FilterSpec :=
  ⟨minDate data, maxDate data, ((priceRange data).1 : ℚ), ((priceRange data).2 : ℚ),
    "All", "All"⟩

/-- First scenario record: project A, January 2024, amount 100000. -/
def rU1 : SaleRecord :=
  ⟨"u1", "A", ⟨2024, 1, 5⟩, 100000, some ("1"), 50, 10, 60, none, none⟩

/-- Second scenario record: project A, January 2024, amount 200000. -/
def rU2 : SaleRecord :=
  ⟨"u2", "A", ⟨2024, 1, 20⟩, 200000, some ("2"), 70, 10, 80, none, none⟩

/-- Third scenario record: project A, February 2024, amount 150000. -/
def rU3 : SaleRecord :=
  ⟨"u3", "A", ⟨2024, 2, 3⟩, 150000, some ("2"), 60, 10, 70, none, none⟩

/-- Three-row ledger of the spec scenario: project A, two contracts in
January 2024 and one in February 2024, amounts 100000, 200000, 150000. -/
def demoC2 : List SaleRecord := [rU1, rU2, rU3]

/-- Record with a zero Total Covered area. -/
def rC3 : SaleRecord :=
  ⟨"u1", "A", ⟨2024, 1, 5⟩, 100000, some ("2"), 0, 0, 0, none, none⟩

/-- One-row ledger whose only record has a zero Total Covered area. -/
def demoC3 : List SaleRecord := [rC3]

/-- Project rollup row produced for demoC3: one unit, zero mean size,
missing price per area. -/
def demoC3Row : ProjRow := ⟨"A", 100000, 100000, 1, 0, none⟩

/-- Record whose amount 100000.5 is positive with a nonzero fractional
part. -/
def rC5max : SaleRecord :=
  ⟨"u1", "A", ⟨2024, 1, 5⟩, (100000.5 : ℚ), some ("2"), 50, 10, 60, none, none⟩

/-- One-row ledger whose maximum contract amount is positive with a nonzero
fractional part. -/
def demoC5 : List SaleRecord := [rC5max]

/-- Record with amount -10. -/
def rNegTen : SaleRecord :=
  ⟨"u1", "A", ⟨2024, 1, 5⟩, -10, some ("2"), 50, 10, 60, none, none⟩

/-- Record holding the fractional maximum amount -2.5. -/
def rFracMax : SaleRecord :=
  ⟨"u2", "A", ⟨2024, 2, 5⟩, (-2.5 : ℚ), some ("2"), 50, 10, 60, none, none⟩

/-- Two-row ledger with negative amounts whose maximum, -2.5, has a nonzero
fractional part; Python int() truncates it up to -2. -/
def demoC5neg : List SaleRecord := [rNegTen, rFracMax]

/-- Filter specification selecting the project B, a value no demo record
carries. -/
def specB : FilterSpec :=
  ⟨⟨2024, 1, 1⟩, ⟨2024, 12, 31⟩, 0, 1000000, "B", "All"⟩

/-- Record whose Bedrooms cell holds the non-numeric value studio. -/
def rStudio : SaleRecord :=
  ⟨"u1", "A", ⟨2024, 1, 5⟩, 100000, some ("studio"), 50, 10, 60, none, none⟩

/-- Record with a numeric bedrooms value next to the studio record. -/
def rTwoBed : SaleRecord :=
  ⟨"u2", "A", ⟨2024, 1, 9⟩, 120000, some ("2"), 50, 10, 60, none, none⟩

/-- Two-row ledger containing the studio record and one numeric-bedrooms
record. -/
def demoC7 : List SaleRecord := [rStudio, rTwoBed]

/-- Record carrying both coordinates. -/
def rGeo : SaleRecord :=
  ⟨"u1", "A", ⟨2024, 1, 5⟩, 250000, some ("2"), 50, 10, 60,
    some (34.7 : ℚ), some (33.05 : ℚ)⟩

/-- One-row ledger whose record has both coordinates. -/
def demoGeo : List SaleRecord := [rGeo]

/-- Record lacking both coordinates. -/
def rNoGeo : SaleRecord :=
  ⟨"u2", "A", ⟨2024, 1, 6⟩, 150000, some ("2"), 50, 10, 60, none, none⟩

/-- Filter specification that constrains nothing on the demo ledgers: full
2024 date range, wide price range, both selectboxes on the sentinel. -/
def wideSpec : FilterSpec :=
  ⟨⟨2024, 1, 1⟩, ⟨2024, 12, 31⟩, 0, 1000000, "All", "All"⟩

/-- First bucket of the time rollup over demoC2. -/
def demoMRow : MonthlyRow := ⟨"2024-01", 300000, 2⟩

/-- Comparing a character list with itself is never strictly less. -/
theorem strLtAux_self : ∀ s, strLtAux s s = false := by
  intro s
  induction s with
  | nil => rfl
  | cons c cs ih => simp [strLtAux, ih]

/-- Strict string comparison is asymmetric. -/
theorem strLtAux_asymm : ∀ s t, strLtAux s t = true → strLtAux t s = false := by
  intro s
  induction s with
  | nil =>
    intro t h
    cases t with
    | nil => simp [strLtAux] at h
    | cons d ds => rfl
  | cons c cs ih =>
    intro t h
    cases t with
    | nil => simp [strLtAux] at h
    | cons d ds =>
      simp only [strLtAux] at h ⊢
      rcases Nat.lt_trichotomy c.toNat d.toNat with h1 | h1 | h1
      · rw [if_neg (show ¬ d.toNat < c.toNat by omega), if_pos h1]
      · rw [if_neg (by omega), if_neg (by omega)] at h
        rw [if_neg (by omega), if_neg (by omega)]
        exact ih ds h
      · rw [if_neg (by omega), if_pos h1] at h
        exact absurd h (by simp)

/-- Strict string comparison is cotransitive: a witness below u is below any
t, or t is itself below u. -/
theorem strLtAux_cotrans :
    ∀ s t u, strLtAux s u = true → strLtAux s t = true ∨ strLtAux t u = true := by
  intro s
  induction s with
  | nil =>
    intro t u h
    cases u with
    | nil => simp [strLtAux] at h
    | cons d ds =>
      cases t with
      | nil => right; exact h
      | cons e es => left; rfl
  | cons c cs ih =>
    intro t u h
    cases u with
    | nil => simp [strLtAux] at h
    | cons d ds =>
      cases t with
      | nil => right; rfl
      | cons e es =>
        simp only [strLtAux] at h ⊢
        by_cases hcd : c.toNat < d.toNat
        · by_cases hce : c.toNat < e.toNat
          · left; rw [if_pos hce]
          · right; rw [if_pos (show e.toNat < d.toNat by omega)]
        · by_cases hdc : d.toNat < c.toNat
          · rw [if_neg hcd, if_pos hdc] at h
            exact absurd h (by simp)
          · rw [if_neg hcd, if_neg hdc] at h
            by_cases hce : c.toNat < e.toNat
            · left; rw [if_pos hce]
            · by_cases hec : e.toNat < c.toNat
              · right; rw [if_pos (show e.toNat < d.toNat by omega)]
              · rcases ih es ds h with h' | h'
                · left; rw [if_neg hce, if_neg hec]; exact h'
                · right
                  rw [if_neg (show ¬ e.toNat < d.toNat by omega),
                    if_neg (show ¬ d.toNat < e.toNat by omega)]
                  exact h'

/-- The reflexive string order is total. -/
theorem strLe_total (a b : String) : strLe a b = true ∨ strLe b a = true := by
  unfold strLe strLt
  by_cases h : strLtAux b.data a.data = true
  · right; simp [strLtAux_asymm _ _ h]
  · left; simp at h; simp [h]

/-- The reflexive string order is transitive. -/
theorem strLe_trans (a b c : String) (h1 : strLe a b = true)
    (h2 : strLe b c = true) : strLe a c = true := by
  unfold strLe strLt at h1 h2 ⊢
  simp only [Bool.not_eq_true'] at h1 h2 ⊢
  by_contra hne
  have hca : strLtAux c.data a.data = true := by
    cases hh : strLtAux c.data a.data with
    | false => exact absurd hh hne
    | true => rfl
  rcases strLtAux_cotrans c.data b.data a.data hca with h | h
  · rw [h2] at h; exact absurd h (by simp)
  · rw [h1] at h; exact absurd h (by simp)

/-- Membership in an insertion step. -/
theorem mem_insertSorted (le : α → α → Bool) (a b : α) (l : List α) :
    b ∈ insertSorted le a l ↔ b = a ∨ b ∈ l := by
  induction l with
  | nil => simp [insertSorted]
  | cons c cs ih =>
    simp only [insertSorted]
    by_cases h : le a c = true
    · rw [if_pos h]; simp [List.mem_cons]
    · rw [if_neg h]; simp only [List.mem_cons, ih]; tauto

/-- Sorting does not change the elements of the list. -/
theorem mem_sortBy (le : α → α → Bool) (b : α) (l : List α) :
    b ∈ sortBy le l ↔ b ∈ l := by
  induction l with
  | nil => simp [sortBy]
  | cons c cs ih =>
    simp only [sortBy, mem_insertSorted, ih, List.mem_cons]

/-- Inserting into a list sorted by a total transitive comparator keeps it
sorted. -/
theorem pairwise_insertSorted (le : α → α → Bool)
    (htot : ∀ x y, le x y = true ∨ le y x = true)
    (htrans : ∀ x y z, le x y = true → le y z = true → le x z = true)
    (a : α) (l : List α) (h : List.Pairwise (fun x y => le x y = true) l) :
    List.Pairwise (fun x y => le x y = true) (insertSorted le a l) := by
  induction l with
  | nil => simp [insertSorted]
  | cons c cs ih =>
    cases h with
    | cons hc hcs =>
      simp only [insertSorted]
      by_cases hac : le a c = true
      · rw [if_pos hac]
        refine List.Pairwise.cons ?_ (List.Pairwise.cons hc hcs)
        intro b hb
        rcases List.mem_cons.1 hb with rfl | hb
        · exact hac
        · exact htrans a c b hac (hc b hb)
      · rw [if_neg hac]
        refine List.Pairwise.cons ?_ (ih hcs)
        intro b hb
        rcases (mem_insertSorted le a b cs).1 hb with h2 | hb
        · rcases htot a c with h' | h'
          · exact absurd h' hac
          · rw [h2]; exact h'
        · exact hc b hb

/-- Insertion sort with a total transitive comparator sorts. -/
theorem pairwise_sortBy (le : α → α → Bool)
    (htot : ∀ x y, le x y = true ∨ le y x = true)
    (htrans : ∀ x y z, le x y = true → le y z = true → le x z = true)
    (l : List α) : List.Pairwise (fun x y => le x y = true) (sortBy le l) := by
  induction l with
  | nil => simp [sortBy]
  | cons c cs ih => exact pairwise_insertSorted le htot htrans c _ ih

/-- The group keys of a view are exactly the key values observed in it. -/
theorem mem_groupKeys (key : SaleRecord → String) (l : List SaleRecord)
    (k : String) : k ∈ groupKeys key l ↔ ∃ r ∈ l, key r = k := by
  unfold groupKeys
  rw [mem_sortBy]
  simp [List.mem_dedup, List.mem_map]

/-- Membership in one group of a groupby. -/
theorem mem_rowsFor (key : SaleRecord → String) (l : List SaleRecord)
    (k : String) (r : SaleRecord) : r ∈ rowsFor key l k ↔ r ∈ l ∧ key r = k := by
  unfold rowsFor
  rw [List.mem_filter]
  simp

/-- A group formed around an observed key is nonempty. -/
theorem rowsFor_length_pos (key : SaleRecord → String) (l : List SaleRecord)
    (k : String) (h : ∃ r ∈ l, key r = k) : 0 < (rowsFor key l k).length := by
  rcases h with ⟨r, hr, hk⟩
  exact List.length_pos_of_mem ((mem_rowsFor key l k r).2 ⟨hr, hk⟩)

/-- Every row of a groupby rollup has a positive unit count and carries a
key observed in the rollup input. -/
theorem rollup_rows {ρ : Type} (key : SaleRecord → String) (l : List SaleRecord)
    (mkRow : String → ρ) (countOf : ρ → Nat) (keyOf : ρ → String)
    (hcount : ∀ k, countOf (mkRow k) = (rowsFor key l k).length)
    (hkey : ∀ k, keyOf (mkRow k) = k) :
    ∀ row ∈ (groupKeys key l).map mkRow,
      1 ≤ countOf row ∧ ∃ r ∈ l, key r = keyOf row := by
  intro row hrow
  rcases List.mem_map.1 hrow with ⟨k, hk, rfl⟩
  rcases (mem_groupKeys key l k).1 hk with ⟨r, hr, hkk⟩
  constructor
  · rw [hcount]
    exact rowsFor_length_pos key l k ⟨r, hr, hkk⟩
  · exact ⟨r, hr, by rw [hkey]; exact hkk⟩

/-- Every record of the rollup input key appears as the key of some rollup
row. -/
theorem exists_rollup_row {ρ : Type} (key : SaleRecord → String)
    (l : List SaleRecord) (mkRow : String → ρ) (keyOf : ρ → String)
    (hkey : ∀ k, keyOf (mkRow k) = k) (r : SaleRecord) (hr : r ∈ l) :
    ∃ row ∈ (groupKeys key l).map mkRow, keyOf row = key r :=
  ⟨mkRow (key r),
    List.mem_map.2 ⟨key r, (mem_groupKeys key l (key r)).2 ⟨r, hr, rfl⟩, rfl⟩,
    hkey (key r)⟩

/-- Decimal digit characters carry code point 48 plus the digit. -/
theorem digitChar_toNat : ∀ d, d < 10 → (digitChar d).toNat = 48 + d := by decide

/-- Comparing two two-digit blocks compares the encoded numbers first and
falls through to the tails on equality. -/
theorem strLtAux_fmt2_append (x y : Nat) (hx : x < 100) (hy : y < 100)
    (xs ys : List Char) :
    strLtAux (fmt2 x ++ xs) (fmt2 y ++ ys) =
      if x < y then true else if y < x then false else strLtAux xs ys := by
  have h1 := digitChar_toNat (x / 10 % 10) (Nat.mod_lt _ (by omega))
  have h2 := digitChar_toNat (x % 10) (Nat.mod_lt _ (by omega))
  have h3 := digitChar_toNat (y / 10 % 10) (Nat.mod_lt _ (by omega))
  have h4 := digitChar_toNat (y % 10) (Nat.mod_lt _ (by omega))
  simp only [fmt2, List.cons_append, List.nil_append, strLtAux, h1, h2, h3, h4]
  split_ifs <;> first | rfl | omega

/-- The separator character compares equal to itself and falls through. -/
theorem strLtAux_dash (as bs : List Char) :
    strLtAux ('-' :: as) ('-' :: bs) = strLtAux as bs := rfl

/-- A string never compares strictly below itself. -/
theorem strLt_self (s : String) : strLt s s = false := strLtAux_self _

/-- Strict string comparison of Year-Month keys of four-digit years agrees
with lexicographic comparison of the (year, month) pairs. -/
theorem strLt_yearMonthKey (d1 d2 : Date)
    (hy1 : d1.year ≤ 9999) (hy2 : d2.year ≤ 9999)
    (hm1 : d1.month ≤ 12) (hm2 : d2.month ≤ 12) :
    (strLt (yearMonthKey d1) (yearMonthKey d2) = true) ↔
      (d1.year < d2.year ∨ (d1.year = d2.year ∧ d1.month < d2.month)) := by
  show (strLtAux (fmt4 d1.year ++ '-' :: fmt2 d1.month)
      (fmt4 d2.year ++ '-' :: fmt2 d2.month) = true) ↔ _
  rw [fmt4, fmt4, List.append_assoc, List.append_assoc]
  rw [strLtAux_fmt2_append _ _ (by omega) (by omega)]
  rw [strLtAux_fmt2_append _ _ (by omega) (by omega)]
  rw [strLtAux_dash]
  rw [← List.append_nil (fmt2 d1.month), ← List.append_nil (fmt2 d2.month)]
  rw [strLtAux_fmt2_append d1.month d2.month (by omega) (by omega)]
  show (if d1.year / 100 < d2.year / 100 then true
      else if d2.year / 100 < d1.year / 100 then false
      else if d1.year % 100 < d2.year % 100 then true
      else if d2.year % 100 < d1.year % 100 then false
      else if d1.month < d2.month then true
      else if d2.month < d1.month then false
      else strLtAux [] []) = true ↔ _
  have hz : strLtAux [] [] = false := rfl
  rw [hz]
  split_ifs <;> simp <;> omega

/-- C1.  The filter operation returns exactly the subset of records
satisfying the conjunction of all predicates: contract date between the
start and end dates inclusive, contract amount between the price bounds
inclusive, and, when the project (resp. bedrooms) selectbox is not the All
sentinel, equality with the selected project (resp. bedrooms); the sentinel
imposes no constraint for its predicate. -/
theorem filteredData_mem_iff (s : FilterSpec) (data : List SaleRecord)
    (r : SaleRecord) :
    r ∈ filteredData s data ↔
      (r ∈ data ∧
        Date.leB s.startDate r.contractDate = true ∧
        Date.leB r.contractDate s.endDate = true ∧
        s.priceMin ≤ r.contractAmount ∧
        r.contractAmount ≤ s.priceMax ∧
        (s.project ≠ "All" → r.project = s.project) ∧
        (s.bedrooms ≠ "All" → r.bedrooms = some s.bedrooms)) := by
  unfold filteredData filterConditions
  rw [List.mem_filter]
  by_cases hp : s.project = "All" <;> by_cases hb : s.bedrooms = "All" <;>
    simp [hp, hb, and_assoc]

/-- C9.  Filtering is idempotent: applying the filter to its own output
yields the same view as applying it once. -/
theorem filteredData_idempotent (s : FilterSpec) (data : List SaleRecord) :
    filteredData s (filteredData s data) = filteredData s data := by
  unfold filteredData
  rw [List.filter_filter]
  simp

/-- C8.  For valid (pandas-parseable) contract dates, the derived
Year-Month keys compare as strings exactly as the underlying (year, month)
pairs compare lexicographically, and two keys are equal exactly when the
pairs are; hence sorting bucket keys as strings orders them
chronologically. -/
theorem yearMonthKey_string_order (d1 d2 : Date)
    (h1 : ValidDate d1) (h2 : ValidDate d2) :
    ((strLt (yearMonthKey d1) (yearMonthKey d2) = true) ↔
      (d1.year < d2.year ∨ (d1.year = d2.year ∧ d1.month < d2.month)))
    ∧ (yearMonthKey d1 = yearMonthKey d2 ↔
      (d1.year = d2.year ∧ d1.month = d2.month)) := by
  obtain ⟨h1a, h1b, h1c, h1d⟩ := h1
  obtain ⟨h2a, h2b, h2c, h2d⟩ := h2
  have main12 := strLt_yearMonthKey d1 d2 (by omega) (by omega) (by omega) (by omega)
  have main21 := strLt_yearMonthKey d2 d1 (by omega) (by omega) (by omega) (by omega)
  refine ⟨main12, ?_, ?_⟩
  · intro he
    have e1 : strLt (yearMonthKey d1) (yearMonthKey d2) = false := by
      rw [he]; exact strLt_self _
    have e2 : strLt (yearMonthKey d2) (yearMonthKey d1) = false := by
      rw [he]; exact strLt_self _
    rw [e1] at main12
    rw [e2] at main21
    simp only [Bool.false_eq_true, false_iff] at main12 main21
    constructor <;> omega
  · intro he
    unfold yearMonthKey
    rw [he.1, he.2]

/-- Evaluation of the time-bucket rollup on the three-row scenario ledger:
two buckets, January with sum 300000 and count 2, February with sum 150000
and count 1. -/
theorem monthlySales_demoC2 :
    monthlySales demoC2 = [⟨"2024-01", 300000, 2⟩, ⟨"2024-02", 150000, 1⟩] := by
  have hkeys : groupKeys (fun r => r.yearMonth) demoC2 = ["2024-01", "2024-02"] := by
    decide
  have h1 : rowsFor (fun r => r.yearMonth) demoC2 ("2024-01") = [rU1, rU2] := by decide
  have h2 : rowsFor (fun r => r.yearMonth) demoC2 ("2024-02") = [rU3] := by decide
  unfold monthlySales monthlyRow
  rw [hkeys]
  simp only [List.map_cons, List.map_nil]
  rw [h1, h2]
  norm_num [sumAmount, rU1, rU2, rU3]

/-- Evaluation of the project rollup on the zero-area one-row ledger: a
single row with mean size zero and a missing price per area. -/
theorem projectSales_demoC3 : projectSales demoC3 = [demoC3Row] := by
  have hkeys : groupKeys (fun r => r.project) demoC3 = ["A"] := by decide
  have h1 : rowsFor (fun r => r.project) demoC3 ("A") = [rC3] := by decide
  unfold projectSales projectRows projectRow
  rw [hkeys]
  simp only [List.map_cons, List.map_nil]
  rw [h1]
  norm_num [sumAmount, meanAmount, meanSize, guardedDiv, rC3, demoC3Row, sortBy,
    insertSorted]

/-- C2.  The time-bucket rollup groups the view by the Year-Month key,
computes for every bucket the sum of Contract Amount and the count of
Unit ID (the group size), emits only observed keys and all of them, and
orders buckets ascending by bucket key; on the three-row scenario ledger it
yields exactly the two buckets 2024-01 (sum 300000, count 2) and 2024-02
(sum 150000, count 1). -/
theorem monthlySales_spec :
    (∀ view : List SaleRecord,
      List.Pairwise (fun a b : MonthlyRow => strLe a.yearMonth b.yearMonth = true)
        (monthlySales view) ∧
      (∀ row ∈ monthlySales view,
        row.totalSales = sumAmount (rowsFor (fun r => r.yearMonth) view row.yearMonth) ∧
        row.unitsSold = (rowsFor (fun r => r.yearMonth) view row.yearMonth).length ∧
        ∃ r ∈ view, r.yearMonth = row.yearMonth) ∧
      (∀ r ∈ view, ∃ row ∈ monthlySales view, row.yearMonth = r.yearMonth)) ∧
    monthlySales demoC2 = [⟨"2024-01", 300000, 2⟩, ⟨"2024-02", 150000, 1⟩] := by
  refine ⟨fun view => ⟨?_, ?_, ?_⟩, monthlySales_demoC2⟩
  · unfold monthlySales groupKeys
    refine List.Pairwise.map (monthlyRow view) (fun a b h => ?_)
      (pairwise_sortBy strLe strLe_total strLe_trans
        ((view.map (fun r => r.yearMonth)).dedup))
    exact h
  · intro row hrow
    rcases List.mem_map.1 hrow with ⟨k, hk, rfl⟩
    refine ⟨rfl, rfl, ?_⟩
    rcases (mem_groupKeys (fun r => r.yearMonth) view k).1 hk with ⟨r, hr, hkey⟩
    exact ⟨r, hr, hkey⟩
  · intro r hr
    exact exists_rollup_row (fun r => r.yearMonth) view (monthlyRow view)
      MonthlyRow.yearMonth (fun k => rfl) r hr

/-- Guarded ratio of a zero denominator is the missing value. -/
theorem guardedDiv_zero {a b : ℚ} (h : b = 0) : guardedDiv a b = none := by
  unfold guardedDiv
  rw [if_pos h]

/-- Guarded ratio of a nonzero denominator is the actual quotient. -/
theorem guardedDiv_ne {a b : ℚ} (h : b ≠ 0) : guardedDiv a b = some (a / b) := by
  unfold guardedDiv
  rw [if_neg h]

/-- C3.  In the project rollup and in the bedroom rollup, a group whose mean
Total Covered size is exactly zero gets a missing (none) price per area,
never a crash, an infinity or a propagating NaN; a group with a nonzero mean
size gets the actual ratio. -/
theorem pricePerArea_zero_guard : ∀ view : List SaleRecord,
    (∀ row ∈ projectSales view,
      (row.avgSize = 0 → row.pricePerArea = none) ∧
      (row.avgSize ≠ 0 → row.pricePerArea = some (row.avgPrice / row.avgSize))) ∧
    (∀ row ∈ bedroomSales view,
      (row.avgSize = 0 → row.pricePerArea = none) ∧
      (row.avgSize ≠ 0 → row.pricePerArea = some (row.avgPrice / row.avgSize))) := by
  intro view
  constructor
  · intro row hrow
    rcases List.mem_map.1 ((mem_sortBy bySalesDesc row (projectRows view)).1 hrow)
      with ⟨k, hk, rfl⟩
    exact ⟨fun h => guardedDiv_zero h, fun h => guardedDiv_ne h⟩
  · intro row hrow
    rcases List.mem_map.1 hrow with ⟨k, hk, rfl⟩
    exact ⟨fun h => guardedDiv_zero h, fun h => guardedDiv_ne h⟩

/-- Witness for C3: on the zero-area ledger the project rollup row has mean
size zero and its price per area is the missing value. -/
theorem pricePerArea_zero_guard_witness :
    demoC3Row ∈ projectSales demoC3 ∧ demoC3Row.avgSize = 0 ∧
    demoC3Row.pricePerArea = none := by
  have hm : demoC3Row ∈ projectSales demoC3 := by
    rw [projectSales_demoC3]
    exact List.mem_cons_self _ _
  exact ⟨hm, rfl, ((pricePerArea_zero_guard demoC3).1 demoC3Row hm).1 rfl⟩

/-- C6.  Each of the four aggregators, applied to an empty view, returns an
empty rollup table (they are total functions, so no error can be raised);
and the scenario filter selecting project B, matched by no row of the demo
ledger, produces exactly such an empty view. -/
theorem empty_view_rollups :
    monthlySales [] = [] ∧ projectSales [] = [] ∧ bedroomSales [] = [] ∧
    allLocations [] = [] ∧ filteredData specB demoC2 = [] := by
  refine ⟨rfl, rfl, rfl, rfl, ?_⟩
  decide

/-- C7.  A record whose Bedrooms value does not parse as numeric is excluded
from the bedroom rollup input, while the project rollup and the time-bucket
rollup over the same view still carry a row for its project and for its
month. -/
theorem nonNumericBedrooms_excluded (view : List SaleRecord) (r : SaleRecord)
    (hr : r ∈ view) (hn : bedroomsNumeric r = false) :
    r ∉ bedroomData view ∧
    (∃ row ∈ projectSales view, row.project = r.project) ∧
    (∃ row ∈ monthlySales view, row.yearMonth = r.yearMonth) := by
  refine ⟨?_, ?_, ?_⟩
  · intro hmem
    have ht := (List.mem_filter.1 hmem).2
    rw [hn] at ht
    exact absurd ht (by simp)
  · rcases exists_rollup_row (fun r => r.project) view (projectRow view)
      ProjRow.project (fun k => rfl) r hr with ⟨row, hrow, hkey⟩
    exact ⟨row, (mem_sortBy bySalesDesc row (projectRows view)).2 hrow, hkey⟩
  · exact exists_rollup_row (fun r => r.yearMonth) view (monthlyRow view)
      MonthlyRow.yearMonth (fun k => rfl) r hr

/-- Witness for C7: the studio record of the two-row demo ledger is in the
view, fails the numeric parse, and is dropped from the bedroom rollup
input. -/
theorem nonNumericBedrooms_excluded_witness :
    rStudio ∈ demoC7 ∧ bedroomsNumeric rStudio = false ∧
    rStudio ∉ bedroomData demoC7 := by
  have h1 : rStudio ∈ demoC7 := List.mem_cons_self _ _
  have h2 : bedroomsNumeric rStudio = false := by decide
  exact ⟨h1, h2, (nonNumericBedrooms_excluded demoC7 rStudio h1 h2).1⟩

/-- C10.  In every rollup produced by the four aggregators, every grouped
output row counts at least one unit and carries a group key observed in the
rollup input (the view itself for the time and project rollups, the
numeric-bedrooms restriction for the bedroom rollup, and the
coordinate-bearing restriction for the geographic rollup); no zero-count
bucket is emitted by grouping.  The fixed reference point of the geographic
rollup is appended after grouping and is not a grouped row. -/
theorem rollups_observed_keys : ∀ view : List SaleRecord,
    (∀ row ∈ monthlySales view,
      1 ≤ row.unitsSold ∧ ∃ r ∈ view, r.yearMonth = row.yearMonth) ∧
    (∀ row ∈ projectSales view,
      1 ≤ row.unitsSold ∧ ∃ r ∈ view, r.project = row.project) ∧
    (∀ row ∈ bedroomSales view,
      1 ≤ row.unitsSold ∧ ∃ r ∈ bedroomData view, r.bedrooms.getD ("") = row.bedrooms) ∧
    (∀ row ∈ projectLocations (mapData view),
      1 ≤ row.unitsSold ∧ ∃ r ∈ mapData view, r.project = row.project) := by
  intro view
  refine ⟨?_, ?_, ?_, ?_⟩
  · exact rollup_rows (fun r => r.yearMonth) view (monthlyRow view)
      MonthlyRow.unitsSold MonthlyRow.yearMonth (fun k => rfl) (fun k => rfl)
  · intro row hrow
    exact rollup_rows (fun r => r.project) view (projectRow view)
      ProjRow.unitsSold ProjRow.project (fun k => rfl) (fun k => rfl) row
      ((mem_sortBy bySalesDesc row (projectRows view)).1 hrow)
  · exact rollup_rows (fun r => r.bedrooms.getD ("")) (bedroomData view)
      (bedroomRow (bedroomData view)) BedRow.unitsSold BedRow.bedrooms
      (fun k => rfl) (fun k => rfl)
  · exact rollup_rows (fun r => r.project) (mapData view)
      (locRow (mapData view)) LocRow.unitsSold LocRow.project
      (fun k => rfl) (fun k => rfl)

/-- Witness for C10: the January bucket of the scenario ledger is a rollup
row with a positive unit count. -/
theorem rollups_observed_keys_witness :
    demoMRow ∈ monthlySales demoC2 ∧ 1 ≤ demoMRow.unitsSold := by
  have hm : demoMRow ∈ monthlySales demoC2 := by
    rw [monthlySales_demoC2]
    exact List.mem_cons_self _ _
  exact ⟨hm, ((rollups_observed_keys demoC2).1 demoMRow hm).1⟩

/-- C4 (amended).  Whenever at least one record of the filtered view has
both coordinates, the geographic rollup restricts to those records, groups
them by project with mean latitude, mean longitude, sum and count of
Contract Amount and marker size equal to the square root of the group total
divided by 100, and its output additionally contains the fixed reference
point, which carries zero total sales, zero units and the fixed marker size
10. -/
theorem allLocations_spec (view : List SaleRecord) (h : mapData view ≠ []) :
    allLocations view = projectLocations (mapData view) ++ [customPlot] ∧
    customPlot.totalSales = 0 ∧ customPlot.unitsSold = 0 ∧ customPlot.size = 10 ∧
    customPlot ∈ allLocations view ∧
    (∀ row ∈ projectLocations (mapData view),
      row.latitude = meanLat (rowsFor (fun r => r.project) (mapData view) row.project) ∧
      row.longitude = meanLon (rowsFor (fun r => r.project) (mapData view) row.project) ∧
      row.totalSales = sumAmount (rowsFor (fun r => r.project) (mapData view) row.project) ∧
      row.unitsSold = (rowsFor (fun r => r.project) (mapData view) row.project).length ∧
      row.size = Real.sqrt ((row.totalSales : ℚ) : ℝ) / 100 ∧
      ∃ r ∈ mapData view, r.project = row.project) := by
  have he : allLocations view = projectLocations (mapData view) ++ [customPlot] := by
    unfold allLocations
    rw [if_neg]
    simp only [List.isEmpty_iff]
    exact h
  refine ⟨he, rfl, rfl, rfl, ?_, ?_⟩
  · rw [he]
    exact List.mem_append.2 (Or.inr (List.mem_cons_self _ _))
  · intro row hrow
    rcases List.mem_map.1 hrow with ⟨k, hk, rfl⟩
    refine ⟨rfl, rfl, rfl, rfl, rfl, ?_⟩
    rcases (mem_groupKeys (fun r => r.project) (mapData view) k).1 hk with ⟨r, hr, hkey⟩
    exact ⟨r, hr, hkey⟩

/-- Counterexample for C4 as stated: a nonempty filtered view whose only
record lacks coordinates makes the coordinate restriction empty, the map
branch is skipped, and the geographic rollup output does not contain the
fixed reference point. -/
theorem allLocations_missing_reference_point :
    filteredData wideSpec [rNoGeo] = [rNoGeo] ∧
    customPlot ∉ allLocations (filteredData wideSpec [rNoGeo]) := by
  have hf : filteredData wideSpec [rNoGeo] = [rNoGeo] := by decide
  have hm : mapData [rNoGeo] = [] := by decide
  refine ⟨hf, ?_⟩
  rw [hf]
  have hempty : allLocations [rNoGeo] = [] := by
    unfold allLocations
    rw [hm]
    rfl
  rw [hempty]
  exact List.not_mem_nil _

/-- Witness for C4: on the one-row ledger with coordinates the coordinate
restriction is nonempty, the rollup is the grouped rows plus the reference
point, and the reference point is in the output. -/
theorem allLocations_spec_witness :
    mapData demoGeo ≠ [] ∧
    allLocations demoGeo = projectLocations (mapData demoGeo) ++ [customPlot] ∧
    customPlot ∈ allLocations demoGeo := by
  have h : mapData demoGeo ≠ [] := by decide
  have hs := allLocations_spec demoGeo h
  exact ⟨h, hs.1, hs.2.2.2.2.1⟩

/-- C5 (amended).  The default price range offered by the slider is the pair
of integer truncations of the minimum and maximum Contract Amount;
consequently, in any dataset whose maximum contract amount is positive with
a nonzero fractional part, the record holding that maximum fails the
inclusive upper price bound of the default filter and is excluded from the
view. -/
theorem defaultPriceRange_truncates (data : List SaleRecord) (r : SaleRecord)
    (hr : r ∈ data) (hmax : r.contractAmount = maxAmount data)
    (hpos : 0 < maxAmount data) (hfrac : (maxAmount data).den ≠ 1) :
    priceRange data = (ratTrunc (minAmount data), ratTrunc (maxAmount data)) ∧
    r ∉ filteredData (defaultSpec data) data := by
  refine ⟨rfl, ?_⟩
  intro hmem
  have hcond := (List.mem_filter.1 hmem).2
  unfold filterConditions at hcond
  simp only [Bool.and_eq_true, decide_eq_true_eq] at hcond
  have hle : r.contractAmount ≤ (defaultSpec data).priceMax := hcond.1.1.2
  have hPM : (defaultSpec data).priceMax = ((ratTrunc (maxAmount data) : ℤ) : ℚ) := rfl
  have htr : ratTrunc (maxAmount data) = ⌊maxAmount data⌋ := if_pos (le_of_lt hpos)
  have hlt : ((⌊maxAmount data⌋ : ℤ) : ℚ) < maxAmount data := by
    rcases lt_or_eq_of_le (Int.floor_le (maxAmount data)) with h | h
    · exact h
    · exact absurd (h ▸ Rat.den_intCast ⌊maxAmount data⌋) hfrac
  rw [hPM, htr, hmax] at hle
  exact absurd hle (not_le.2 hlt)

/-- Witness for C5 (amended): the one-row ledger with amount 100000.5 has a
positive fractional maximum, and its record is excluded by the default
filter. -/
theorem defaultPriceRange_truncates_witness :
    rC5max ∈ demoC5 ∧ rC5max.contractAmount = maxAmount demoC5 ∧
    (0 : ℚ) < maxAmount demoC5 ∧ (maxAmount demoC5).den ≠ 1 ∧
    rC5max ∉ filteredData (defaultSpec demoC5) demoC5 := by
  have h1 : rC5max ∈ demoC5 := List.mem_cons_self _ _
  have h2 : rC5max.contractAmount = maxAmount demoC5 := by
    norm_num [maxAmount, demoC5]
  have h3 : (0 : ℚ) < maxAmount demoC5 := by
    norm_num [maxAmount, demoC5, rC5max]
  have h4 : (maxAmount demoC5).den ≠ 1 := by
    norm_num [maxAmount, demoC5, rC5max]
  exact ⟨h1, h2, h3, h4,
    (defaultPriceRange_truncates demoC5 rC5max h1 h2 h3 h4).2⟩

/-- Counterexample for C5 as stated: in the two-row ledger with amounts -10
and -2.5 the maximum amount -2.5 has a nonzero fractional part, yet Python
int() truncates it toward zero to -2, the inclusive bound -2.5 ≤ -2 holds,
and the maximum record remains in the default-filtered view instead of
being excluded. -/
theorem defaultPriceRange_includes_fractional_max :
    rFracMax.contractAmount = maxAmount demoC5neg ∧
    (maxAmount demoC5neg).den ≠ 1 ∧
    rFracMax ∈ filteredData (defaultSpec demoC5neg) demoC5neg := by
  have hc10 : ⌈(-10 : ℚ)⌉ = -10 := by
    rw [Int.ceil_eq_iff]
    norm_num
  have hc52 : ⌈(-(5 / 2) : ℚ)⌉ = -2 := by
    rw [Int.ceil_eq_iff]
    norm_num
  have hspec : defaultSpec demoC5neg =
      ⟨⟨2024, 1, 5⟩, ⟨2024, 2, 5⟩, -10, -2, "All", "All"⟩ := by
    norm_num [defaultSpec, minDate, maxDate, minPrice, maxPrice, priceRange,
      ratTrunc, minAmount, maxAmount, demoC5neg, rNegTen, rFracMax, Date.leB,
      hc10, hc52]
  refine ⟨?_, ?_, ?_⟩
  · norm_num [maxAmount, demoC5neg, rNegTen, rFracMax]
  · norm_num [maxAmount, demoC5neg, rNegTen, rFracMax]
  · rw [hspec]
    norm_num [filteredData, demoC5neg, List.filter, filterConditions, rNegTen,
      rFracMax, Date.leB, decide_eq_true_eq]

/-- Witness for C8: the keys of December 2023 and January 2024 compare as
strings exactly as the (year, month) pairs compare. -/
theorem yearMonthKey_string_order_witness :
    ValidDate ⟨2023, 12, 31⟩ ∧ ValidDate ⟨2024, 1, 15⟩ ∧
    ((strLt (yearMonthKey ⟨2023, 12, 31⟩) (yearMonthKey ⟨2024, 1, 15⟩) = true) ↔
      ((2023 : Nat) < 2024 ∨ ((2023 : Nat) = 2024 ∧ (12 : Nat) < 1))) ∧
    (yearMonthKey ⟨2023, 12, 31⟩ = yearMonthKey ⟨2024, 1, 15⟩ ↔
      ((2023 : Nat) = 2024 ∧ (12 : Nat) = 1)) := by
  refine ⟨by decide, by decide, ?_, ?_⟩
  · exact (yearMonthKey_string_order ⟨2023, 12, 31⟩ ⟨2024, 1, 15⟩
      (by decide) (by decide)).1
  · exact (yearMonthKey_string_order ⟨2023, 12, 31⟩ ⟨2024, 1, 15⟩
      (by decide) (by decide)).2
